import Mathlib

/-!
Shallow embedding of the video-wallpaper rendering pipeline: the audio
analyzer (`audio-analyzer.ts`), the frame synthesizer / video generator
(`video-generator.ts`, latest revision: the one carrying a `seed` field in
`VideoConfig` and the seeded pseudo-random helpers), the upload job
orchestration (`pages/api/upload.ts`) and the overlay generator
(`lib/overlay-generator.ts`).

JavaScript numbers are modelled as exact rationals (`ℚ`).  The transcendental
library functions `Math.sin` / `Math.cos`, which are fixed pure functions of
their argument, are abstracted as fields of a `JsMathEnv` parameter; every
theorem below holds for an arbitrary such environment.  `Math.random()` is
modelled as an explicit stream parameter, and `Date.now()` as an explicit
`now` argument, so that (non-)dependence on ambient state becomes a provable
statement about the embedded functions.
-/

/-- JavaScript-style truncation toward zero of a rational number. -/
def ratTrunc (x : ℚ) : ℤ := if 0 ≤ x then ⌊x⌋ else ⌈x⌉

/-- The JavaScript `%` remainder operator on numbers: `a % b = a - b * trunc (a / b)`,
so the result carries the sign of the dividend. -/
def jsMod (a b : ℚ) : ℚ := a - b * (ratTrunc (a / b) : ℚ)

/-- JavaScript array indexing `l[i]`: an out-of-range (or negative) index yields
`undefined`, modelled as `none`. -/
def jsArrayGet (l : List ℚ) (i : ℤ) : Option ℚ :=
  if h : 0 ≤ i ∧ i.toNat < l.length then some (l.get ⟨i.toNat, h.2⟩) else none

/-- The JavaScript `v || d` defaulting idiom applied to a possibly-absent number:
the default is substituted when the value is missing (`undefined`) or falsy
(in particular when the stored number is exactly `0`). -/
def jsOrDefault (v : Option ℚ) (d : ℚ) : ℚ :=
  match v with
  | none => d
  | some x => if x = 0 then d else x

/-- Abstraction of the pure transcendental functions of the JavaScript `Math`
object.  Every theorem in this file is stated for an arbitrary environment. -/
structure JsMathEnv where
  sin : ℚ → ℚ
  cos : ℚ → ℚ

/-- A concrete environment used by witnesses. -/
def zeroEnv : JsMathEnv := { sin := fun _ => 0, cos := fun _ => 0 }

/-! ## Audio analyzer (`audio-analyzer.ts`) -/

/-- `AudioAnalysis` record produced by `AudioAnalyzer.analyzeAudio`. -/
structure AudioAnalysis where
  duration : ℚ
  rms : List ℚ
  frequencies : List ℚ
  silence : List Bool
  vocalEnergy : List ℚ
  sampleRate : ℚ
  deriving DecidableEq

/-- `AudioAnalyzer.sampleRate` (44100 samples per second). -/
def analyzerSampleRate : ℚ := 44100

/-- `AudioAnalyzer.frameSize` (1024 samples per analysis frame). -/
def analyzerFrameSize : ℚ := 1024

/-- `AudioAnalyzer.generateSimulatedRMS`.  `rand i` is the value returned by the
`i`-th call of `Math.random()` inside this function. -/
def generateSimulatedRMS (env : JsMathEnv) (rand : ℕ → ℚ) (frameCount : ℕ) : List ℚ :=
  (List.range frameCount).map (fun i =>
    let baseLevel := 0.1 + rand i * 0.2
    let variation := env.sin ((i : ℚ) * 0.1) * 0.05
    max 0 (baseLevel + variation))

/-- `AudioAnalyzer.generateSimulatedFrequencies`. -/
def generateSimulatedFrequencies (rand : ℕ → ℚ) (frameCount : ℕ) : List ℚ :=
  (List.range frameCount).map (fun i => 150 + rand i * 100)

/-- `AudioAnalyzer.detectSilence`: a frame is flagged silent when its RMS value is
strictly below the fixed threshold 0.05. -/
def detectSilence (rms : List ℚ) : List Bool :=
  rms.map (fun value => decide (value < 0.05))

/-- Per-frequency classifier of `AudioAnalyzer.calculateVocalEnergy`. -/
def vocalEnergyOf (freq : ℚ) : ℚ :=
  if 85 ≤ freq ∧ freq ≤ 255 then 1
  else if 85 * 0.5 ≤ freq ∧ freq ≤ 255 * 2 then 0.5
  else 0.1

/-- `AudioAnalyzer.calculateVocalEnergy`. -/
def calculateVocalEnergy (frequencies : List ℚ) : List ℚ :=
  frequencies.map vocalEnergyOf

/-- `AudioAnalyzer.analyzeAudio` for an input whose container duration was
determined to be `duration`.  `rand` is the stream of `Math.random()` results:
the RMS simulation consumes the first `frameCount` values, the frequency
simulation the next `frameCount`. -/
def analyzeAudio (env : JsMathEnv) (rand : ℕ → ℚ) (duration : ℚ) : AudioAnalysis :=
  let frameCount : ℕ := (⌊duration * analyzerSampleRate / analyzerFrameSize⌋).toNat
  let rms := generateSimulatedRMS env rand frameCount
  let frequencies := generateSimulatedFrequencies (fun i => rand (frameCount + i)) frameCount
  { duration := duration
    rms := rms
    frequencies := frequencies
    silence := detectSilence rms
    vocalEnergy := calculateVocalEnergy frequencies
    sampleRate := analyzerSampleRate }

/-! ## Style presets and seeded randomness (`video-generator.ts`) -/

/-- The `visualParams` bundle of a `StylePreset`. -/
structure StylePresetParams where
  colorPalette : List String
  motionStyle : String
  textureType : String
  reactivity : String
  deriving DecidableEq

/-- A named visual style preset. -/
structure StylePreset where
  name : String
  description : String
  visualParams : StylePresetParams
  deriving DecidableEq

/-- First entry of `VideoGenerator.presets`. -/
def frenchNewWavePreset : StylePreset :=
  { name := "French New Wave"
    description := "Black & white jump cuts, freeze frames, grainy film look with RMS-reactive elements"
    visualParams :=
      { colorPalette := ["#000000", "#ffffff", "#808080", "#404040"]
        motionStyle := "jumpy"
        textureType := "grainy"
        reactivity := "strong" } }

/-- Second entry of `VideoGenerator.presets`. -/
def retroChromaticPreset : StylePreset :=
  { name := "'80s Retro Chromatic"
    description := "Neon gridlines, VHS textures, synthwave aesthetic"
    visualParams :=
      { colorPalette := ["#ff00ff", "#00ffff", "#000000", "#ffffff"]
        motionStyle := "drift"
        textureType := "grainy"
        reactivity := "strong" } }

/-- Third entry of `VideoGenerator.presets`. -/
def wineCountryPreset : StylePreset :=
  { name := "Wine-Country Dreamscape"
    description := "Abstract vineyards, painterly textures, soft camera drifts"
    visualParams :=
      { colorPalette := ["#8B4513", "#DAA520", "#F4A460", "#DEB887"]
        motionStyle := "smooth"
        textureType := "painterly"
        reactivity := "subtle" } }

/-- `VideoGenerator.presets`: the fixed in-memory style catalog. -/
def presets : List StylePreset :=
  [frenchNewWavePreset, retroChromaticPreset, wineCountryPreset]

/-- `this.presets.find(p => p.name === stylePresetName)`. -/
def findPreset (stylePresetName : String) : Option StylePreset :=
  presets.find? (fun p => p.name == stylePresetName)

/-- One step of `VideoGenerator.seededRandom`: the generator built from `seed`
returns `((seed * 9301 + 49297) % 233280) / 233280` on its first call.
`randomRange` / `randomInt` / `randomChoice` each build a fresh generator and
call it exactly once, so only the first output matters. -/
def seededNext (seed : ℚ) : ℚ :=
  jsMod (seed * 9301 + 49297) 233280 / 233280

/-- `VideoGenerator.randomRange`. -/
def randomRange (seed mn mx : ℚ) : ℚ :=
  mn + seededNext seed * (mx - mn)

/-- `VideoGenerator.randomInt`: `Math.floor(randomRange(seed, min, max + 1))`. -/
def randomInt (seed mn mx : ℚ) : ℤ :=
  ⌊randomRange seed mn (mx + 1)⌋

/-- JavaScript array access returning a junk value (`0`) out of range.  In
JavaScript an out-of-range access yields `undefined`; the theorems below only
use this under a `0 ≤ seed` hypothesis, where the index is proved in range, so
the junk value is never reached. -/
def jsIndexD (l : List ℚ) (i : ℤ) : ℚ :=
  (jsArrayGet l i).getD 0

/-- `VideoGenerator.randomChoice`: `array[randomInt(seed, 0, array.length - 1)]`. -/
def randomChoice (seed : ℚ) (arr : List ℚ) : ℚ :=
  jsIndexD arr (randomInt seed 0 ((arr.length : ℚ) - 1))

/-! ## Visual parameters and frame synthesis (`video-generator.ts`) -/

/-- The visual-parameter object returned by `VideoGenerator.calculateVisualParams`
(latest revision).  All four branches return exactly these eight fields. -/
structure VisualParams where
  hue : ℚ
  saturation : ℚ
  brightness : ℚ
  energyMultiplier : ℚ
  motionIntensity : ℚ
  jumpCutIntensity : ℚ
  filmGrainIntensity : ℚ
  contrastMultiplier : ℚ
  deriving DecidableEq

/-- `VideoGenerator.calculateVisualParams` (latest revision).  The computed
`vocalMultiplier` of the source is dead in this revision (no branch returns
it) and is omitted.  The `switch` on `preset.name` is modelled by nested
string comparisons; the trailing branch is the `default` arm. -/
def calculateVisualParams (time rms vocalEnergy frequency : ℚ)
    (preset : StylePreset) (seed : ℚ) : VisualParams :=
  let baseHue := jsMod (time * 10) 360
  let energyMultiplier := 1 + rms * 2
  let hueVariation := randomRange seed (-30) 30
  let saturationVariation := randomRange seed (-20) 20
  let brightnessVariation := randomRange seed (-15) 15
  let hue := jsMod (baseHue + hueVariation) 360
  let saturation := max 20 (min 100 (50 + rms * 100 + saturationVariation))
  let brightness := max 20 (min 80 (50 + vocalEnergy * 30 + brightnessVariation))
  if preset.name = "French New Wave" then
    { hue := 0
      saturation := 0
      brightness := if 0.2 < rms then 80 else 20
      energyMultiplier := energyMultiplier
      motionIntensity := 1 + rms * 3
      jumpCutIntensity := if 0.15 < rms then 0.8 else 0
      filmGrainIntensity := 0.3 + rms * 0.4
      contrastMultiplier := 1 + rms * 2 }
  else if preset.name = "'80s Retro Chromatic" then
    { hue := randomChoice seed [0, 180, 300, 60]
      saturation := 80 + rms * 20
      brightness := 60 + vocalEnergy * 20
      energyMultiplier := energyMultiplier
      motionIntensity := 0.5 + rms * 2
      jumpCutIntensity := 0
      filmGrainIntensity := 0.2 + rms * 0.3
      contrastMultiplier := 1.2 + rms * 1.5 }
  else if preset.name = "Wine-Country Dreamscape" then
    { hue := randomChoice seed [30, 45, 60, 15]
      saturation := 40 + rms * 30
      brightness := 50 + vocalEnergy * 15
      energyMultiplier := energyMultiplier
      motionIntensity := 0.3 + rms * 1
      jumpCutIntensity := 0
      filmGrainIntensity := 0.1 + rms * 0.2
      contrastMultiplier := 0.8 + rms * 0.5 }
  else
    { hue := hue
      saturation := saturation
      brightness := brightness
      energyMultiplier := energyMultiplier
      motionIntensity := 1 + rms * 2
      jumpCutIntensity := 0
      filmGrainIntensity := 0.1 + rms * 0.2
      contrastMultiplier := 1 + rms * 1 }

/-- `VideoConfig` (latest revision, with the optional job seed). -/
structure VideoConfig where
  width : ℚ
  height : ℚ
  fps : ℚ
  duration : ℚ
  stylePreset : StylePreset
  audioAnalysis : AudioAnalysis
  seed : Option ℚ
  deriving DecidableEq

/-- The frame-data object returned by `VideoGenerator.generateFrameData`. -/
structure FrameDescriptor where
  time : ℚ
  rms : ℚ
  vocalEnergy : ℚ
  frequency : ℚ
  visualParams : VisualParams
  seed : ℚ
  deriving DecidableEq

/-- `const baseSeed = seed || Date.now()`: the JavaScript `||` falls through to
`Date.now()` both when no seed was configured and when the configured seed is
the falsy number `0`.  `now` is the current `Date.now()` value. -/
def baseSeedOf (seed : Option ℚ) (now : ℚ) : ℚ :=
  match seed with
  | none => now
  | some s => if s = 0 then now else s

/-- The analysis frame index used by `generateFrameData`:
`Math.floor(time * audioAnalysis.sampleRate / 1024)`. -/
def audioFrameIndexOf (config : VideoConfig) (time : ℚ) : ℤ :=
  ⌊time * config.audioAnalysis.sampleRate / 1024⌋

/-- `VideoGenerator.generateFrameData` (latest revision).  `now` is the value
`Date.now()` would return during this call; it is consulted only through
`baseSeedOf`. -/
def generateFrameData (time : ℚ) (config : VideoConfig) (now : ℚ) : FrameDescriptor :=
  let frameIndex : ℤ := ⌊time * config.fps⌋
  let baseSeed := baseSeedOf config.seed now
  let audioFrameIndex := audioFrameIndexOf config time
  let rms := jsOrDefault (jsArrayGet config.audioAnalysis.rms audioFrameIndex) 0.1
  let vocalEnergy := jsOrDefault (jsArrayGet config.audioAnalysis.vocalEnergy audioFrameIndex) 0.5
  let frequency := jsOrDefault (jsArrayGet config.audioAnalysis.frequencies audioFrameIndex) 150
  { time := time
    rms := rms
    vocalEnergy := vocalEnergy
    frequency := frequency
    visualParams :=
      calculateVisualParams time rms vocalEnergy frequency config.stylePreset
        (baseSeed + (frameIndex : ℚ))
    seed := baseSeed + (frameIndex : ℚ) }

/-! ## Progress record (`video-generator.ts` / `pages/api/upload.ts`) -/

/-- `Math.floor(duration * fps)` — the job's total frame count. -/
def totalFramesOf (config : VideoConfig) : ℤ :=
  ⌊config.duration * config.fps⌋

/-- The ordered sequence of `(current, total)` pairs written to the progress file
by `VideoGenerator.generateFrames` for a job with identifier present: one write
per loop iteration `frameIndex = 0 … totalFrames-1`, followed by the final
write `totalFrames/totalFrames`. -/
def progressWrites (totalFrames : ℤ) : List (ℤ × ℤ) :=
  ((List.range totalFrames.toNat).map (fun i : ℕ => ((i : ℤ), totalFrames))) ++
    [(totalFrames, totalFrames)]

/-- Fuel-driven decimal rendering of a natural number (the fuel argument makes
the recursion structural; `digitStr` supplies sufficient fuel). -/
def digitStrAux : ℕ → ℕ → List Char
  | 0, _ => []
  | fuel + 1, n =>
    if n < 10 then [Nat.digitChar n]
    else digitStrAux fuel (n / 10) ++ [Nat.digitChar (n % 10)]

/-- Decimal rendering of a natural number, as JavaScript renders an integral
number into a template string. -/
def digitStr (n : ℕ) : List Char := digitStrAux (n + 1) n

/-- Decimal rendering of an integer. -/
def intStr (i : ℤ) : List Char :=
  if i < 0 then '-' :: digitStr (-i).toNat else digitStr i.toNat

/-- The progress-file content written by `generateFrames`:
`` `${current}/${total}\n` ``. -/
def progressLine (current total : ℤ) : String :=
  String.mk (intStr current ++ '/' :: intStr total ++ ['\n'])

/-- The placeholder content `0/1` written by `pages/api/upload.ts` as soon as a
job is accepted, before the background job starts. -/
def uploadInitialProgress : String := "0/1"

/-- Whitespace recognised by the embedded `String.prototype.trim`. -/
def jsWhitespace (c : Char) : Bool :=
  c = ' ' ∨ c = '\n' ∨ c = '\t' ∨ c = '\r'

/-- `content.trim()`. -/
def jsTrim (s : List Char) : List Char :=
  ((s.dropWhile jsWhitespace).reverse.dropWhile jsWhitespace).reverse

/-- `content.replace(/[^0-9\/]/g, '')`: drop every character that is neither a
decimal digit nor a slash. -/
def sanitizeProgress (s : List Char) : List Char :=
  s.filter (fun c => c.isDigit || c == '/')

/-- `content.match(/(\d+)\/(\d+)/)`: leftmost match of the regular expression,
returning the two (greedy, hence maximal) digit groups.  Greedy `\d+` followed
by a literal `/` never benefits from backtracking, so taking the maximal digit
run at each candidate start position is exact. -/
def findProgressMatch : List Char → Option (List Char × List Char)
  | [] => none
  | c :: cs =>
    if c.isDigit then
      if ((c :: cs).dropWhile (fun ch => ch.isDigit)).head? = some '/' then
        if (((c :: cs).dropWhile (fun ch => ch.isDigit)).tail.takeWhile
            (fun ch => ch.isDigit)).isEmpty then
          findProgressMatch cs
        else
          some ((c :: cs).takeWhile (fun ch => ch.isDigit),
            ((c :: cs).dropWhile (fun ch => ch.isDigit)).tail.takeWhile (fun ch => ch.isDigit))
      else findProgressMatch cs
    else findProgressMatch cs

/-- `parseInt(digits, 10)` on a string of decimal digits. -/
def digitsToNat (ds : List Char) : ℕ :=
  ds.foldl (fun acc c => 10 * acc + (c.toNat - '0'.toNat)) 0

/-- The pure parsing core of `getFrameProgress` (latest revision): trim,
sanitize, regex-match, `parseInt` both groups.  Every step is a total
non-throwing JavaScript operation, and the enclosing `try` converts any read
failure to `null`, so the whole read is modelled as a total function. -/
def parseProgress (content : String) : Option (ℕ × ℕ) :=
  let sanitized := sanitizeProgress (jsTrim content.toList)
  (findProgressMatch sanitized).map (fun p => (digitsToNat p.1, digitsToNat p.2))

/-- `getFrameProgress(jobId)`: `none` when the progress file does not exist
(`existsSync` false) and the defensive parse of its content otherwise. -/
def getFrameProgressModel (file : Option String) : Option (ℕ × ℕ) :=
  file.bind parseProgress

/-- `k` successive polls of an unchanged progress file. -/
def repeatedPolls (file : Option String) (k : ℕ) : List (Option (ℕ × ℕ)) :=
  (List.range k).map (fun _ => getFrameProgressModel file)

/-! ## JavaScript value layer for the SVG builders

`generateSVGFrame` and the element builders destructure visual fields
(`hue`, `saturation`, `brightness`, `energyMultiplier`, `motionIntensity`,
`jumpCutIntensity`, `filmGrainIntensity`, `contrastMultiplier`) directly from
`frameData`, but `generateFrameData` stores those only inside
`frameData.visualParams`; the destructured bindings are therefore the
JavaScript value `undefined`, and arithmetic on them produces `NaN`.  The
small `JVal` type tracks this faithfully.  Template-literal text is embedded
with its markup and interpolations in source order; runs of indentation
whitespace are compressed, which no claim depends on. -/

/-- A JavaScript value as it occurs in the SVG builders: a number, `undefined`,
or `NaN`. -/
inductive JVal where
  | num : ℚ → JVal
  | undef : JVal
  | nan : JVal
  deriving DecidableEq

/-- Wrap a number. -/
def jnum (q : ℚ) : JVal := JVal.num q

/-- JavaScript `+` on numbers: any operand that is `undefined` or `NaN` gives `NaN`. -/
def jadd : JVal → JVal → JVal
  | JVal.num a, JVal.num b => JVal.num (a + b)
  | _, _ => JVal.nan

/-- JavaScript `*` on numbers: any operand that is `undefined` or `NaN` gives `NaN`. -/
def jmul : JVal → JVal → JVal
  | JVal.num a, JVal.num b => JVal.num (a * b)
  | _, _ => JVal.nan

/-- JavaScript `>` : comparisons involving `undefined` or `NaN` are false. -/
def jgtB : JVal → JVal → Bool
  | JVal.num a, JVal.num b => decide (b < a)
  | _, _ => false

/-- JavaScript `x !== undefined`. -/
def jneUndef : JVal → Bool
  | JVal.undef => false
  | _ => true

/-- Rendering of a rational into a template string.  This is an injective
stand-in for the JavaScript number-to-string conversion; no claim depends on
the exact digits. -/
def ratStr (q : ℚ) : String := toString q

/-- Template-string rendering of a `JVal` (`undefined` and `NaN` print as the
corresponding JavaScript words). -/
def jvalStr : JVal → String
  | JVal.num q => ratStr q
  | JVal.undef => "undefined"
  | JVal.nan => "NaN"

/-- Rational stand-in for the double-precision constant `Math.PI`. -/
def jsPI : ℚ := 3.141592653589793

/-- Iteration count of `for (let i = 0; i < n; i++)` for a numeric bound. -/
def loopCount : JVal → ℕ
  | JVal.num q => (⌈q⌉).toNat
  | _ => 0

/-! ## SVG element builders (`video-generator.ts`, latest revision) -/

/-- `VideoGenerator.generateAudioReactiveCircles`.  `hue`, `saturation`,
`brightness` and `energyMultiplier` are destructured from `frameData`, which
carries them only inside `visualParams`, so they are `undefined` here; `seed`
and `time` are genuine top-level fields. -/
def generateAudioReactiveCircles (env : JsMathEnv) (frameData : FrameDescriptor)
    (width height : ℚ) : String :=
  let hue := JVal.undef
  let saturation := JVal.undef
  let brightness := JVal.undef
  let energyMultiplier := JVal.undef
  let seed := frameData.seed
  let numCircles := randomInt seed 3 8
  let pieces := (List.range numCircles.toNat).map (fun n =>
    let i : ℚ := (n : ℚ)
    let baseX := randomRange (seed + i * 100) (width * 0.1) (width * 0.9)
    let baseY := randomRange (seed + i * 200) (height * 0.1) (height * 0.9)
    let x := baseX + env.sin (frameData.time + i) * randomRange (seed + i * 300) 20 80
    let y := baseY + env.cos (frameData.time + i * 2) * randomRange (seed + i * 400) 20 80
    let radius := jadd (jnum (randomRange (seed + i * 500) 15 25)) (jmul energyMultiplier (jnum 30))
    let opacity := jadd (jnum (randomRange (seed + i * 600) 0.2 0.4)) (jmul energyMultiplier (jnum 0.4))
    let hueOffset := randomRange (seed + i * 700) (-60) 60
    let fill := "hsl(" ++ jvalStr (jadd hue (jnum hueOffset)) ++ ", " ++ jvalStr saturation ++
      "%, " ++ jvalStr brightness ++ "%)"
    "\n <circle \n cx=\"" ++ ratStr x ++ "\" \n cy=\"" ++ ratStr y ++ "\" \n r=\"" ++
      jvalStr radius ++ "\" \n fill=\"" ++ fill ++ "\" \n opacity=\"" ++ jvalStr opacity ++
      "\"\n />\n ")
  String.join pieces

/-- `VideoGenerator.generateAudioReactiveLines`.  `hue`, `saturation`,
`brightness` and `motionIntensity` are `undefined` here (see
`generateAudioReactiveCircles`). -/
def generateAudioReactiveLines (env : JsMathEnv) (frameData : FrameDescriptor)
    (width height : ℚ) : String :=
  let hue := JVal.undef
  let saturation := JVal.undef
  let brightness := JVal.undef
  let motionIntensity := JVal.undef
  let seed := frameData.seed
  let numLines := randomInt seed 2 6
  let pieces := (List.range numLines.toNat).map (fun n =>
    let i : ℚ := (n : ℚ)
    let y1 := randomRange (seed + i * 100) (height * 0.1) (height * 0.9)
    let y2 := y1 + env.sin (frameData.time + i) * randomRange (seed + i * 200) 50 150
    let strokeWidth := jadd (jnum (randomRange (seed + i * 300) 1 3)) (jmul motionIntensity (jnum 3))
    let hueOffset := randomRange (seed + i * 400) (-90) 90
    let opacity := randomRange (seed + i * 500) 0.5 0.9
    let stroke := "hsl(" ++ jvalStr (jadd hue (jnum hueOffset)) ++ ", " ++ jvalStr saturation ++
      "%, " ++ jvalStr brightness ++ "%)"
    "\n <line \n x1=\"0\" \n y1=\"" ++ ratStr y1 ++ "\" \n x2=\"" ++ ratStr width ++
      "\" \n y2=\"" ++ ratStr y2 ++ "\" \n stroke=\"" ++ stroke ++ "\" \n stroke-width=\"" ++
      jvalStr strokeWidth ++ "\"\n opacity=\"" ++ ratStr opacity ++ "\"\n />\n ")
  String.join pieces

/-- `VideoGenerator.generateFrenchNewWaveCircles`.  `rms`, `seed` and `time` are
top-level fields of `frameData`; `jumpCutIntensity` and `contrastMultiplier`
are `undefined` here, so the `jumpCutIntensity > 0` disjunct is always false. -/
def generateFrenchNewWaveCircles (env : JsMathEnv) (frameData : FrameDescriptor)
    (width height : ℚ) : String :=
  let rms := frameData.rms
  let jumpCutIntensity := JVal.undef
  let seed := frameData.seed
  let baseNumCircles : ℤ := ⌊3 + rms * 8⌋
  let numCircles := randomInt seed ((baseNumCircles : ℚ) - 1) ((baseNumCircles : ℚ) + 2)
  let pieces := (List.range numCircles.toNat).map (fun n =>
    let i : ℚ := (n : ℚ)
    if jgtB jumpCutIntensity (jnum 0) || decide ((0.3 : ℚ) < randomRange (seed + i * 100) 0 1) then
      let baseX := randomRange (seed + i * 200) (width * 0.05) (width * 0.95)
      let baseY := randomRange (seed + i * 300) (height * 0.05) (height * 0.95)
      let x := baseX + rms * 100 * env.sin (frameData.time + i)
      let y := baseY + rms * 50 * env.cos (frameData.time + i * 2)
      let radius := jadd (jadd (jnum (randomRange (seed + i * 400) 10 20)) (jnum (rms * 40)))
        (jmul jumpCutIntensity (jnum 20))
      let opacity := jadd (jadd (jnum (randomRange (seed + i * 500) 0.1 0.3)) (jnum (rms * 0.6)))
        (jmul jumpCutIntensity (jnum 0.3))
      let threshold := randomRange (seed + i * 600) 0.15 0.25
      let fillColor := if threshold < rms then "#ffffff" else "#000000"
      let strokeColor := if threshold < rms then "#000000" else "#ffffff"
      "\n <circle \n cx=\"" ++ ratStr x ++ "\" \n cy=\"" ++ ratStr y ++ "\" \n r=\"" ++
        jvalStr radius ++ "\" \n fill=\"" ++ fillColor ++ "\" \n opacity=\"" ++ jvalStr opacity ++
        "\"\n stroke=\"" ++ strokeColor ++ "\"\n stroke-width=\"" ++
        ratStr (randomRange (seed + i * 700) 0.5 2 + rms * 3) ++ "\"\n />\n "
    else "")
  String.join pieces

/-- `VideoGenerator.generateFrenchNewWaveLines` (same `undefined` situation as
`generateFrenchNewWaveCircles`). -/
def generateFrenchNewWaveLines (env : JsMathEnv) (frameData : FrameDescriptor)
    (width height : ℚ) : String :=
  let rms := frameData.rms
  let jumpCutIntensity := JVal.undef
  let seed := frameData.seed
  let baseNumLines : ℤ := ⌊2 + rms * 6⌋
  let numLines := randomInt seed ((baseNumLines : ℚ) - 1) ((baseNumLines : ℚ) + 2)
  let pieces := (List.range numLines.toNat).map (fun n =>
    let i : ℚ := (n : ℚ)
    if jgtB jumpCutIntensity (jnum 0) || decide ((0.4 : ℚ) < randomRange (seed + i * 100) 0 1) then
      let y1 := randomRange (seed + i * 200) (height * 0.1) (height * 0.9)
      let y2 := y1 + env.sin (frameData.time + i) * randomRange (seed + i * 300) 30 200
      let strokeWidth := jadd (jadd (jnum (randomRange (seed + i * 400) 0.5 2)) (jnum (rms * 5)))
        (jmul jumpCutIntensity (jnum 3))
      let opacity := jadd (jadd (jnum (randomRange (seed + i * 500) 0.2 0.5)) (jnum (rms * 0.5)))
        (jmul jumpCutIntensity (jnum 0.4))
      let threshold := randomRange (seed + i * 600) 0.15 0.22
      let strokeColor := if threshold < rms then "#ffffff" else "#000000"
      "\n <line \n x1=\"0\" \n y1=\"" ++ ratStr y1 ++ "\" \n x2=\"" ++ ratStr width ++
        "\" \n y2=\"" ++ ratStr y2 ++ "\" \n stroke=\"" ++ strokeColor ++ "\" \n stroke-width=\"" ++
        jvalStr strokeWidth ++ "\"\n opacity=\"" ++ jvalStr opacity ++ "\"\n />\n "
    else "")
  String.join pieces

/-- Points string of the star-like polygon branch of
`generateFrenchNewWaveElements`. -/
def starPoints (env : JsMathEnv) (time x y size : ℚ) (seedBase : ℚ) : String :=
  let numPoints := randomInt seedBase 5 8
  let pts := (List.range numPoints.toNat).map (fun m =>
    let j : ℚ := (m : ℚ)
    let angle := j * 2 * jsPI / (numPoints : ℚ)
    let radius := if m % 2 = 0 then size else size * 0.5
    let px := x + radius * env.cos (angle + time * (j + 7))
    let py := y + radius * env.sin (angle + time * (j + 8))
    ratStr px ++ "," ++ ratStr py)
  String.intercalate " " pts

/-- `VideoGenerator.generateFrenchNewWaveElements`.  `jumpCutIntensity` and
`filmGrainIntensity` are `undefined` here, so the trailing jump-cut flash
rectangle is never emitted. -/
def generateFrenchNewWaveElements (env : JsMathEnv) (frameData : FrameDescriptor)
    (width height : ℚ) : String :=
  let rms := frameData.rms
  let jumpCutIntensity := JVal.undef
  let seed := frameData.seed
  let time := frameData.time
  let baseNumShapes : ℤ := ⌊2 + rms * 4 + env.sin (time * 0.5) * 2⌋
  let numShapes := randomInt seed ((baseNumShapes : ℚ) - 2) ((baseNumShapes : ℚ) + 3)
  let pieces := (List.range numShapes.toNat).map (fun n =>
    let i : ℚ := (n : ℚ)
    let baseX := randomRange (seed + i * 100) (width * 0.1) (width * 0.9)
    let baseY := randomRange (seed + i * 200) (height * 0.1) (height * 0.9)
    let x := baseX + env.sin (time * (i + 1)) * 20
    let y := baseY + env.cos (time * (i + 2)) * 20
    let baseSize := randomRange (seed + i * 300) 15 25
    let size := baseSize + rms * 60 + env.sin (time * (i + 3)) * 10
    let opacity := randomRange (seed + i * 400) 0.3 0.5 + rms * 0.4 + |env.sin (time * (i + 4))| * 0.2
    let shapeType := randomInt (seed + i * 500) 0 3
    let threshold := randomRange (seed + i * 600) 0.15 0.25
    let isWhite := decide (0 < env.sin (time * (i + 5)))
    let fillColor := if threshold < rms then (if isWhite then "#ffffff" else "#000000")
      else (if isWhite then "#000000" else "#ffffff")
    let strokeColor := if threshold < rms then (if isWhite then "#000000" else "#ffffff")
      else (if isWhite then "#ffffff" else "#000000")
    let strokeWidth := randomRange (seed + i * 700) 0.5 2 + rms * 2 + |env.sin (time * (i + 6))| * 2
    if shapeType = 0 then
      "\n <polygon \n points=\"" ++ ratStr (x - size) ++ "," ++ ratStr (y + size) ++ " " ++
        ratStr (x + size) ++ "," ++ ratStr (y + size) ++ " " ++ ratStr x ++ "," ++
        ratStr (y - size) ++ "\" \n fill=\"" ++ fillColor ++ "\" \n opacity=\"" ++
        ratStr opacity ++ "\"\n stroke=\"" ++ strokeColor ++ "\"\n stroke-width=\"" ++
        ratStr strokeWidth ++ "\"\n />\n "
    else if shapeType = 1 then
      "\n <rect \n x=\"" ++ ratStr (x - size) ++ "\" \n y=\"" ++ ratStr (y - size) ++
        "\" \n width=\"" ++ ratStr (size * 2) ++ "\" \n height=\"" ++ ratStr (size * 2) ++
        "\" \n fill=\"" ++ fillColor ++ "\" \n opacity=\"" ++ ratStr opacity ++
        "\"\n stroke=\"" ++ strokeColor ++ "\"\n stroke-width=\"" ++ ratStr strokeWidth ++
        "\"\n />\n "
    else if shapeType = 2 then
      "\n <circle \n cx=\"" ++ ratStr x ++ "\" \n cy=\"" ++ ratStr y ++ "\" \n r=\"" ++
        ratStr size ++ "\" \n fill=\"" ++ fillColor ++ "\" \n opacity=\"" ++ ratStr opacity ++
        "\"\n stroke=\"" ++ strokeColor ++ "\"\n stroke-width=\"" ++ ratStr strokeWidth ++
        "\"\n />\n "
    else
      "\n <polygon \n points=\"" ++ starPoints env time x y size (seed + i * 800) ++
        "\" \n fill=\"" ++ fillColor ++ "\" \n opacity=\"" ++ ratStr opacity ++
        "\"\n stroke=\"" ++ strokeColor ++ "\"\n stroke-width=\"" ++ ratStr strokeWidth ++
        "\"\n />\n ")
  let flash := if jgtB jumpCutIntensity (jnum 0) then
      "\n <rect \n x=\"0\" \n y=\"0\" \n width=\"" ++ ratStr width ++ "\" \n height=\"" ++
        ratStr height ++ "\" \n fill=\"#ffffff\" \n opacity=\"" ++
        ratStr (randomRange seed 0.05 0.15) ++ "\"\n />\n "
    else ""
  String.join pieces ++ flash

/-- `VideoGenerator.generateSVGFrame` (latest revision).  The destructured
visual fields are all `undefined` (they live in `frameData.visualParams`), so
the style branch test `jumpCutIntensity !== undefined && jumpCutIntensity > 0`
is always false and the film-grain filter is never enabled. -/
def generateSVGFrame (env : JsMathEnv) (frameData : FrameDescriptor)
    (width height : ℚ) : String :=
  let hue := JVal.undef
  let saturation := JVal.undef
  let brightness := JVal.undef
  let energyMultiplier := JVal.undef
  let motionIntensity := JVal.undef
  let jumpCutIntensity := JVal.undef
  let filmGrainIntensity := JVal.undef
  let bgColor := "hsl(" ++ jvalStr hue ++ ", " ++ jvalStr saturation ++ "%, " ++
    jvalStr brightness ++ "%)"
  let accentColor := "hsl(" ++ jvalStr (jadd hue (jnum 180)) ++ ", " ++ jvalStr saturation ++
    "%, " ++ jvalStr (jadd brightness (jnum 20)) ++ "%)"
  let isFrenchNewWave := jneUndef jumpCutIntensity && jgtB jumpCutIntensity (jnum 0)
  let circles := if isFrenchNewWave then generateFrenchNewWaveCircles env frameData width height
    else generateAudioReactiveCircles env frameData width height
  let lines := if isFrenchNewWave then generateFrenchNewWaveLines env frameData width height
    else generateAudioReactiveLines env frameData width height
  let specialElements := if isFrenchNewWave then generateFrenchNewWaveElements env frameData width height
    else ""
  let grainDef := if jgtB filmGrainIntensity (jnum 0) then
      "\n <filter id=\"filmGrain\">\n <feTurbulence type=\"fractalNoise\" baseFrequency=\"0.8\" numOctaves=\"4\" result=\"noise\"/>\n <feColorMatrix type=\"matrix\" values=\"1 0 0 0 0 0 1 0 0 0 0 0 1 0 0 0 0 0 " ++
        jvalStr filmGrainIntensity ++ " 0\"/>\n </filter>\n "
    else ""
  let grainAttr := if jgtB filmGrainIntensity (jnum 0) then "filter=\"url(#filmGrain)\"" else ""
  "\n <svg width=\"" ++ ratStr width ++ "\" height=\"" ++ ratStr height ++
    "\" xmlns=\"http://www.w3.org/2000/svg\">\n <defs>\n <radialGradient id=\"bgGradient\">\n <stop offset=\"0%\" style=\"stop-color:" ++
    bgColor ++ ";stop-opacity:1\" />\n <stop offset=\"100%\" style=\"stop-color:" ++
    accentColor ++ ";stop-opacity:0.3\" />\n </radialGradient>\n " ++ grainDef ++
    "\n </defs>\n \n <rect width=\"100%\" height=\"100%\" fill=\"url(#bgGradient)\" " ++
    grainAttr ++ " />\n \n " ++ circles ++ "\n " ++ lines ++ "\n " ++ specialElements ++
    "\n \n <!-- Audio-reactive pulse -->\n <circle \n cx=\"" ++ ratStr (width / 2) ++
    "\" \n cy=\"" ++ ratStr (height / 2) ++ "\" \n r=\"" ++
    jvalStr (jmul (jnum 50) energyMultiplier) ++
    "\" \n fill=\"none\" \n stroke=\"" ++ accentColor ++ "\" \n stroke-width=\"" ++
    jvalStr (jmul (jnum 2) motionIntensity) ++ "\"\n opacity=\"0.6\"\n />\n </svg>\n "

/-! ## Overlay generator (`lib/overlay-generator.ts`) -/

/-- The `style` bundle of an `OverlayElement`. -/
structure OverlayStyle where
  fontSize : ℚ
  fontFamily : String
  color : String
  backgroundColor : Option String
  opacity : ℚ
  deriving DecidableEq

/-- An `OverlayElement` (`position` is flattened into `posX`/`posY`). -/
structure OverlayElement where
  type : String
  startTime : ℚ
  duration : ℚ
  content : String
  posX : ℚ
  posY : ℚ
  style : OverlayStyle
  deriving DecidableEq

/-- `content.replace(/['\\]/g, '\\$&')`: prefix every single quote and every
backslash in the overlay text with a backslash. -/
def escapeFilterText (s : List Char) : List Char :=
  s.flatMap (fun c => if c = '\'' ∨ c = '\\' then ['\\', c] else [c])

/-- Left inverse of `escapeFilterText`: consume one backslash before each
escaped character and reject any unescaped quote or dangling backslash. -/
def unescapeFilterText : List Char → Option (List Char)
  | [] => some []
  | c :: rest =>
    if c = '\\' then
      match rest with
      | [] => none
      | d :: rest2 => (unescapeFilterText rest2).map (fun r => d :: r)
    else if c = '\'' then none
    else (unescapeFilterText rest).map (fun r => c :: r)

/-- `OverlayGenerator.createTextFilter` (the `width`/`height` parameters are
unused in the source body as well). -/
def createTextFilter (overlay : OverlayElement) (width height : ℚ) : String :=
  let escapedContent := String.mk (escapeFilterText overlay.content.toList)
  "drawtext=text='" ++ escapedContent ++ "':" ++
    "fontsize=" ++ ratStr overlay.style.fontSize ++ ":" ++
    "fontcolor=" ++ overlay.style.color ++ ":" ++
    "x=" ++ ratStr overlay.posX ++ ":" ++
    "y=" ++ ratStr overlay.posY ++ ":" ++
    "enable='between(t," ++ ratStr overlay.startTime ++ "," ++
    ratStr (overlay.startTime + overlay.duration) ++ ")':" ++
    "fontfile=/System/Library/Fonts/Arial.ttf:" ++
    "box=1:boxcolor=" ++ overlay.style.backgroundColor.getD "#000000" ++ ":" ++
    "boxborderw=5:alpha=" ++ ratStr overlay.style.opacity

/-- `OverlayGenerator.buildFilterComplex`: one comma-joined filter expression. -/
def buildFilterComplex (overlays : List OverlayElement) (width height : ℚ) : String :=
  String.intercalate "," (overlays.map (fun o => createTextFilter o width height))

/-- The FFmpeg expression function `between(x, min, max)` emitted inside each
element's `enable=` option.  Per the FFmpeg utils documentation it returns 1
exactly when `min ≤ x` and `x ≤ max` — inclusive at both endpoints. -/
def betweenFF (x mn mx : ℚ) : Bool :=
  decide (mn ≤ x) && decide (x ≤ mx)

/-- Truth of the enable-window `between(t, startTime, startTime + duration)`
generated by `createTextFilter` for an element, at time `t`. -/
def enableWindowHolds (o : OverlayElement) (t : ℚ) : Bool :=
  betweenFF t o.startTime (o.startTime + o.duration)

/-! ## Background job orchestration (`pages/api/upload.ts`) -/

/-- A JSON value as written into the terminal result record. -/
inductive JsonVal where
  | str : String → JsonVal
  | bool : Bool → JsonVal
  | num : ℚ → JsonVal
  | numArr : List ℚ → JsonVal
  | boolArr : List Bool → JsonVal
  | obj : List (String × JsonVal) → JsonVal

/-- The failure record written by the `catch` block of the background job:
`{ error: 'Failed to process upload', details, jobId }` (key order as in
`JSON.stringify` of the object literal). -/
def failureRecord (jobId details : String) : List (String × JsonVal) :=
  [("error", JsonVal.str "Failed to process upload"),
   ("details", JsonVal.str details),
   ("jobId", JsonVal.str jobId)]

/-- The success record written at the end of the background job (key order as
in the source object literal). -/
def successRecord (jobId videoPath thumbnailPath : String) (analysis : AudioAnalysis) :
    List (String × JsonVal) :=
  [("success", JsonVal.bool true),
   ("videoPath", JsonVal.str videoPath),
   ("thumbnailPath", JsonVal.str thumbnailPath),
   ("duration", JsonVal.num analysis.duration),
   ("jobId", JsonVal.str jobId),
   ("analysis", JsonVal.obj
     [("rms", JsonVal.numArr (analysis.rms.take 100)),
      ("vocalEnergy", JsonVal.numArr (analysis.vocalEnergy.take 100)),
      ("silence", JsonVal.boolArr (analysis.silence.take 100))])]

/-- The message of the error thrown by `VideoGenerator.generateVideo` when the
style-preset lookup fails. -/
def styleNotFoundMessage (stylePresetName : String) : String :=
  "Style preset \"" ++ stylePresetName ++ "\" not found"

/-- The terminal result record written by the background job started in
`pages/api/upload.ts`.  The stages that shell out to external processes are
modelled by `Except String` parameters carrying either their product (a path)
or the message of the error they throw: `analysisResult` is
`AudioAnalyzer.analyzeAudio` (which throws when the duration cannot be read),
`encodeResult` the frame-render/FFmpeg-mux step of `generateVideo`,
`overlayResult` `OverlayGenerator.addOverlays` and `thumbnailResult`
`generateThumbnail`.  The style lookup and its thrown message are embedded
from `generateVideo`; any thrown error is caught by the single `catch` block,
which writes `failureRecord` with the error's detail text. -/
def backgroundJob (jobId stylePresetName : String)
    (analysisResult : Except String AudioAnalysis)
    (encodeResult overlayResult thumbnailResult : Except String String) :
    List (String × JsonVal) :=
  match analysisResult with
  | Except.error e => failureRecord jobId e
  | Except.ok analysis =>
    match findPreset stylePresetName with
    | none => failureRecord jobId (styleNotFoundMessage stylePresetName)
    | some _ =>
      match encodeResult with
      | Except.error e => failureRecord jobId e
      | Except.ok _ =>
        match overlayResult with
        | Except.error e => failureRecord jobId e
        | Except.ok finalVideoPath =>
          match thumbnailResult with
          | Except.error e => failureRecord jobId e
          | Except.ok thumbnailPath =>
            successRecord jobId finalVideoPath thumbnailPath analysis

/-! ## Concrete fixtures used by witnesses and counterexamples -/

/-- An `AudioAnalysis` with empty descriptor sequences. -/
def emptyAnalysis : AudioAnalysis :=
  { duration := 0, rms := [], frequencies := [], silence := [], vocalEnergy := [],
    sampleRate := 44100 }

/-- A `VideoConfig` whose job seed is the falsy number `0`. -/
def zeroSeedConfig : VideoConfig :=
  { width := 1920, height := 1080, fps := 30, duration := 0,
    stylePreset := frenchNewWavePreset, audioAnalysis := emptyAnalysis, seed := some 0 }

/-- A `VideoConfig` with a nonzero job seed. -/
def fixedSeedConfig : VideoConfig :=
  { width := 1920, height := 1080, fps := 30, duration := 0,
    stylePreset := frenchNewWavePreset, audioAnalysis := emptyAnalysis, seed := some 5 }

/-- An `AudioAnalysis` whose first stored RMS value is exactly `0`. -/
def zeroRmsAnalysis : AudioAnalysis :=
  { duration := 1, rms := [0], frequencies := [200], silence := [true], vocalEnergy := [0.5],
    sampleRate := 44100 }

/-- A `VideoConfig` over `zeroRmsAnalysis`. -/
def zeroRmsConfig : VideoConfig :=
  { width := 1920, height := 1080, fps := 30, duration := 1,
    stylePreset := frenchNewWavePreset, audioAnalysis := zeroRmsAnalysis, seed := some 1 }

/-- A `VideoConfig` for a 30-second job (900 frames at 30 fps). -/
def thirtySecondConfig : VideoConfig :=
  { width := 1920, height := 1080, fps := 30, duration := 30,
    stylePreset := frenchNewWavePreset, audioAnalysis := emptyAnalysis, seed := some 5 }

/-- The intro overlay element generated by `generateOverlayElements` for a
1920×1080 job. -/
def introOverlay : OverlayElement :=
  { type := "intro", startTime := 0, duration := 5, content := "DAEDALUS HOWELL & CO.",
    posX := 960, posY := 540,
    style := { fontSize := 72, fontFamily := "Arial, sans-serif", color := "#ffffff",
               backgroundColor := some "#000000", opacity := 0.9 } }

/-! ## Helper lemmas -/

theorem jsMod_bounds (a b : ℚ) (ha : 0 ≤ a) (hb : 0 < b) :
    0 ≤ jsMod a b ∧ jsMod a b < b := by
  have hdiv : (0 : ℚ) ≤ a / b := div_nonneg ha hb.le
  have htr : ratTrunc (a / b) = ⌊a / b⌋ := if_pos hdiv
  have hb' : b ≠ 0 := ne_of_gt hb
  have hfr : jsMod a b = b * Int.fract (a / b) := by
    rw [jsMod, htr, Int.fract]
    field_simp
  constructor
  · rw [hfr]; exact mul_nonneg hb.le (Int.fract_nonneg _)
  · rw [hfr]
    calc b * Int.fract (a / b) < b * 1 := (mul_lt_mul_left hb).mpr (Int.fract_lt_one _)
    _ = b := mul_one b

theorem seededNext_bounds (seed : ℚ) (h : 0 ≤ seed) :
    0 ≤ seededNext seed ∧ seededNext seed < 1 := by
  have ha : (0 : ℚ) ≤ seed * 9301 + 49297 := by nlinarith
  have hb : (0 : ℚ) < 233280 := by norm_num
  obtain ⟨h0, h1⟩ := jsMod_bounds (seed * 9301 + 49297) 233280 ha hb
  constructor
  · rw [seededNext]; exact div_nonneg h0 hb.le
  · rw [seededNext, div_lt_one hb]; exact h1

theorem randomChoice_mem (seed : ℚ) (h : 0 ≤ seed) (arr : List ℚ) (hne : arr ≠ []) :
    randomChoice seed arr ∈ arr := by
  obtain ⟨hn0, hn1⟩ := seededNext_bounds seed h
  have hlen : 0 < arr.length := List.length_pos.mpr hne
  have hLpos : (0 : ℚ) < (arr.length : ℚ) := by exact_mod_cast hlen
  have hval : randomRange seed 0 (((arr.length : ℚ) - 1) + 1) =
      seededNext seed * (arr.length : ℚ) := by
    rw [randomRange]; ring
  have h0 : 0 ≤ ⌊seededNext seed * (arr.length : ℚ)⌋ :=
    Int.floor_nonneg.mpr (mul_nonneg hn0 hLpos.le)
  have h1 : ⌊seededNext seed * (arr.length : ℚ)⌋ < (arr.length : ℤ) := by
    rw [Int.floor_lt]
    push_cast
    nlinarith
  have hidx : randomInt seed 0 ((arr.length : ℚ) - 1) =
      ⌊seededNext seed * (arr.length : ℚ)⌋ := by
    rw [randomInt, hval]
  rw [randomChoice, jsIndexD, hidx]
  have hcond : 0 ≤ ⌊seededNext seed * (arr.length : ℚ)⌋ ∧
      (⌊seededNext seed * (arr.length : ℚ)⌋).toNat < arr.length := ⟨h0, by omega⟩
  rw [jsArrayGet, dif_pos hcond]
  simpa using List.get_mem arr _

theorem getD_map_of_lt {α β : Type} (f : α → β) (dα : α) (dβ : β) :
    ∀ (l : List α) (i : ℕ), i < l.length → (l.map f).getD i dβ = f (l.getD i dα) := by
  intro l
  induction l with
  | nil => intro i hi; simp at hi
  | cons x xs ih =>
    intro i hi
    cases i with
    | zero => simp
    | succ n =>
      simp only [List.map_cons, List.getD_cons_succ]
      exact ih n (by simpa using hi)

theorem takeWhile_eq_self_of_all {α : Type} (p : α → Bool) :
    ∀ l : List α, (∀ c ∈ l, p c = true) → l.takeWhile p = l := by
  intro l
  induction l with
  | nil => intro _; rfl
  | cons x xs ih =>
    intro h
    rw [List.takeWhile_cons, if_pos (h x (List.mem_cons_self x xs)),
      ih (fun c hc => h c (List.mem_cons_of_mem x hc))]

theorem takeWhile_append_stop {α : Type} (p : α → Bool) :
    ∀ (l r : List α), (∀ c ∈ l, p c = true) → (∀ x ∈ r.head?, p x = false) →
      (l ++ r).takeWhile p = l := by
  intro l
  induction l with
  | nil =>
    intro r _ hr
    cases r with
    | nil => rfl
    | cons y ys =>
      have : p y = false := hr y (by simp)
      simp [List.takeWhile_cons, this]
  | cons x xs ih =>
    intro r h hr
    rw [List.cons_append, List.takeWhile_cons, if_pos (h x (List.mem_cons_self x xs)),
      ih r (fun c hc => h c (List.mem_cons_of_mem x hc)) hr]

theorem dropWhile_append_stop {α : Type} (p : α → Bool) :
    ∀ (l r : List α), (∀ c ∈ l, p c = true) → (∀ x ∈ r.head?, p x = false) →
      (l ++ r).dropWhile p = r := by
  intro l
  induction l with
  | nil =>
    intro r _ hr
    cases r with
    | nil => rfl
    | cons y ys =>
      have : p y = false := hr y (by simp)
      simp [List.dropWhile_cons, this]
  | cons x xs ih =>
    intro r h hr
    rw [List.cons_append, List.dropWhile_cons, if_pos (h x (List.mem_cons_self x xs)),
      ih r (fun c hc => h c (List.mem_cons_of_mem x hc)) hr]

theorem dropWhile_eq_self_of_head {α : Type} (p : α → Bool) (l : List α)
    (h : ∀ x ∈ l.head?, p x = false) : l.dropWhile p = l := by
  cases l with
  | nil => rfl
  | cons x xs =>
    have hx : p x = false := h x (by simp)
    simp [List.dropWhile_cons, hx]

theorem mem_takeWhile_pred {α : Type} (p : α → Bool) :
    ∀ (l : List α) (a : α), a ∈ l.takeWhile p → p a = true := by
  intro l
  induction l with
  | nil => intro a ha; simp at ha
  | cons x xs ih =>
    intro a ha
    rw [List.takeWhile_cons] at ha
    by_cases hx : p x = true
    · rw [if_pos hx] at ha
      rcases List.mem_cons.mp ha with rfl | ha
      · exact hx
      · exact ih a ha
    · rw [if_neg hx] at ha
      simp at ha

theorem digitChar_isDigit (n : ℕ) (h : n < 10) : (Nat.digitChar n).isDigit = true := by
  interval_cases n <;> decide

theorem digitChar_val (n : ℕ) (h : n < 10) : (Nat.digitChar n).toNat - '0'.toNat = n := by
  interval_cases n <;> decide

theorem digitsToNat_append_singleton (l : List Char) (c : Char) :
    digitsToNat (l ++ [c]) = 10 * digitsToNat l + (c.toNat - '0'.toNat) := by
  simp [digitsToNat, List.foldl_append]

theorem digitStrAux_spec :
    ∀ (fuel n : ℕ), n < 10 ^ (fuel + 1) →
      digitStrAux (fuel + 1) n ≠ [] ∧
      (∀ c ∈ digitStrAux (fuel + 1) n, c.isDigit = true) ∧
      digitsToNat (digitStrAux (fuel + 1) n) = n := by
  intro fuel
  induction fuel with
  | zero =>
    intro n hn
    have h10 : n < 10 := by simpa using hn
    rw [digitStrAux, if_pos h10]
    refine ⟨by simp, ?_, ?_⟩
    · intro c hc
      simp at hc
      subst hc
      exact digitChar_isDigit n h10
    · simp [digitsToNat]
      exact digitChar_val n h10
  | succ f ih =>
    intro n hn
    by_cases h10 : n < 10
    · rw [digitStrAux, if_pos h10]
      refine ⟨by simp, ?_, ?_⟩
      · intro c hc
        simp at hc
        subst hc
        exact digitChar_isDigit n h10
      · simp [digitsToNat]
        exact digitChar_val n h10
    · rw [digitStrAux, if_neg h10]
      have hdiv : n / 10 < 10 ^ (f + 1) := by
        rw [Nat.div_lt_iff_lt_mul (by norm_num : 0 < 10)]
        calc n < 10 ^ (f + 2) := hn
        _ = 10 ^ (f + 1) * 10 := by ring
      obtain ⟨hne, hdig, hval⟩ := ih (n / 10) hdiv
      refine ⟨by simp, ?_, ?_⟩
      · intro c hc
        rcases List.mem_append.mp hc with hc | hc
        · exact hdig c hc
        · simp at hc
          subst hc
          exact digitChar_isDigit (n % 10) (Nat.mod_lt n (by norm_num))
      · rw [digitsToNat_append_singleton, hval,
          digitChar_val (n % 10) (Nat.mod_lt n (by norm_num))]
        omega

theorem digitStr_spec (n : ℕ) :
    digitStr n ≠ [] ∧ (∀ c ∈ digitStr n, c.isDigit = true) ∧ digitsToNat (digitStr n) = n := by
  have h : n < 10 ^ (n + 1) :=
    lt_of_lt_of_le (Nat.lt_pow_self (by norm_num) n)
      (Nat.pow_le_pow_right (by norm_num) (Nat.le_succ n))
  exact digitStrAux_spec n n h

theorem digit_not_whitespace (c : Char) (h : c.isDigit = true) : jsWhitespace c = false := by
  simp only [jsWhitespace, decide_eq_false_iff_not]
  rintro (rfl | rfl | rfl | rfl) <;> exact absurd h (by decide)

theorem dropWhile_eq_self_of_all {α : Type} (p : α → Bool) (l : List α)
    (h : ∀ x ∈ l, p x = false) : l.dropWhile p = l := by
  apply dropWhile_eq_self_of_head
  intro x hx
  exact h x (List.mem_of_mem_head? hx)

theorem jsTrim_append_newline (l : List Char) (h : ∀ c ∈ l, jsWhitespace c = false) :
    jsTrim (l ++ ['\n']) = l := by
  cases l with
  | nil => decide
  | cons x xs =>
    have hx : jsWhitespace x = false := h x (by simp)
    rw [jsTrim, List.cons_append, List.dropWhile_cons, if_neg (by simp [hx])]
    rw [show (x :: (xs ++ ['\n'])) = (x :: xs) ++ ['\n'] from rfl]
    rw [List.reverse_append]
    simp only [List.reverse_cons, List.reverse_nil, List.nil_append, List.singleton_append]
    rw [List.dropWhile_cons, if_pos (by decide)]
    rw [dropWhile_eq_self_of_all _ _ (by
      intro y hy
      refine h y ?_
      have : y ∈ (xs.reverse ++ [x]) := hy
      rcases List.mem_append.mp this with hmem | hmem
      · exact List.mem_cons_of_mem x (List.mem_reverse.mp hmem)
      · simp at hmem
        subst hmem
        exact List.mem_cons_self _ _)]
    rw [show (xs.reverse ++ [x]) = (x :: xs).reverse from by simp]
    rw [List.reverse_reverse]

theorem findProgressMatch_sound :
    ∀ (l d1 d2 : List Char), findProgressMatch l = some (d1, d2) →
      d1 ≠ [] ∧ d2 ≠ [] ∧ (∀ c ∈ d1, c.isDigit = true) ∧ (∀ c ∈ d2, c.isDigit = true) ∧
      ∃ pre post, l = pre ++ d1 ++ '/' :: d2 ++ post := by
  intro l
  induction l with
  | nil => intro d1 d2 h; simp [findProgressMatch] at h
  | cons c cs ih =>
    intro d1 d2 h
    rw [findProgressMatch] at h
    by_cases hc : c.isDigit = true
    · rw [if_pos hc] at h
      by_cases hhead : ((c :: cs).dropWhile (fun ch => ch.isDigit)).head? = some '/'
      · rw [if_pos hhead] at h
        by_cases hemp : (((c :: cs).dropWhile (fun ch => ch.isDigit)).tail.takeWhile
            (fun ch => ch.isDigit)).isEmpty = true
        · rw [if_pos hemp] at h
          obtain ⟨hne1, hne2, hd1, hd2, pre, post, hdec⟩ := ih d1 d2 h
          exact ⟨hne1, hne2, hd1, hd2, c :: pre, post, by rw [hdec]; rfl⟩
        · rw [if_neg hemp] at h
          obtain ⟨h1, h2⟩ := Prod.mk.injEq _ _ _ _ ▸ (Option.some.inj h)
          subst h1
          subst h2
          generalize htl : ((c :: cs).dropWhile (fun ch => ch.isDigit)).tail = tl at hemp
          have hdrop : (c :: cs).dropWhile (fun ch => ch.isDigit) = '/' :: tl := by
            rcases hd : (c :: cs).dropWhile (fun ch => ch.isDigit) with _ | ⟨r, r2⟩
            · rw [hd] at hhead; simp at hhead
            · rw [hd] at hhead
              simp at hhead
              subst hhead
              rw [hd] at htl
              simp at htl
              rw [hd, htl]
          refine ⟨?_, ?_, ?_, ?_, [], tl.dropWhile (fun ch => ch.isDigit), ?_⟩
          · rw [List.takeWhile_cons, if_pos hc]
            simp
          · intro hcontr
            rw [hcontr] at hemp
            simp at hemp
          · intro x hx
            exact mem_takeWhile_pred _ _ x hx
          · intro x hx
            exact mem_takeWhile_pred _ _ x hx
          · rw [List.nil_append]
            have ht := List.takeWhile_append_dropWhile (p := fun ch => ch.isDigit) (l := tl)
            conv_lhs => rw [← List.takeWhile_append_dropWhile
              (p := fun ch => ch.isDigit) (l := c :: cs), hdrop, ← ht]
            simp [List.append_assoc]
      · rw [if_neg hhead] at h
        obtain ⟨hne1, hne2, hd1, hd2, pre, post, hdec⟩ := ih d1 d2 h
        exact ⟨hne1, hne2, hd1, hd2, c :: pre, post, by rw [hdec]; rfl⟩
    · rw [if_neg hc] at h
      obtain ⟨hne1, hne2, hd1, hd2, pre, post, hdec⟩ := ih d1 d2 h
      exact ⟨hne1, hne2, hd1, hd2, c :: pre, post, by rw [hdec]; rfl⟩

theorem findProgressMatch_wellformed (a b : List Char)
    (ha : a ≠ []) (hb : b ≠ [])
    (hda : ∀ c ∈ a, c.isDigit = true) (hdb : ∀ c ∈ b, c.isDigit = true) :
    findProgressMatch (a ++ '/' :: b) = some (a, b) := by
  obtain ⟨d, ds, rfl⟩ := List.exists_cons_of_ne_nil ha
  have hd : d.isDigit = true := hda d (List.mem_cons_self d ds)
  have hslash : ∀ x ∈ (('/' :: b) : List Char).head?, x.isDigit = false := by
    intro x hx
    simp at hx
    subst hx
    decide
  have htake : ((d :: ds) ++ '/' :: b).takeWhile (fun ch => ch.isDigit) = d :: ds :=
    takeWhile_append_stop _ _ _ hda hslash
  have hdrop : ((d :: ds) ++ '/' :: b).dropWhile (fun ch => ch.isDigit) = '/' :: b :=
    dropWhile_append_stop _ _ _ hda hslash
  have htb : b.takeWhile (fun ch => ch.isDigit) = b := takeWhile_eq_self_of_all _ b hdb
  have hbe : ¬ (b.isEmpty = true) := by
    cases b with
    | nil => exact absurd rfl hb
    | cons y ys => simp
  rw [List.cons_append] at htake hdrop ⊢
  rw [findProgressMatch, if_pos hd, hdrop]
  simp only [List.head?_cons, List.tail_cons, htb, htake]
  rw [if_pos trivial, if_neg hbe]

theorem parseProgress_roundtrip (current total : ℕ) :
    parseProgress (progressLine (current : ℤ) (total : ℤ)) = some (current, total) := by
  obtain ⟨hne₁, hdig₁, hval₁⟩ := digitStr_spec current
  obtain ⟨hne₂, hdig₂, hval₂⟩ := digitStr_spec total
  have hint₁ : intStr (current : ℤ) = digitStr current := by
    rw [intStr, if_neg (by omega)]
    norm_num
  have hint₂ : intStr (total : ℤ) = digitStr total := by
    rw [intStr, if_neg (by omega)]
    norm_num
  have hbody : ∀ c ∈ digitStr current ++ '/' :: digitStr total, jsWhitespace c = false := by
    intro c hc
    rcases List.mem_append.mp hc with h | h
    · exact digit_not_whitespace c (hdig₁ c h)
    · rcases List.mem_cons.mp h with rfl | h
      · decide
      · exact digit_not_whitespace c (hdig₂ c h)
  have hlist : (progressLine (current : ℤ) (total : ℤ)).toList =
      (digitStr current ++ '/' :: digitStr total) ++ ['\n'] := by
    rw [progressLine, hint₁, hint₂]
    simp [List.append_assoc]
  rw [parseProgress, hlist, jsTrim_append_newline _ hbody]
  have hsan : sanitizeProgress (digitStr current ++ '/' :: digitStr total) =
      digitStr current ++ '/' :: digitStr total := by
    rw [sanitizeProgress, List.filter_eq_self]
    intro a ha
    rcases List.mem_append.mp ha with h | h
    · simp [hdig₁ a h]
    · rcases List.mem_cons.mp h with rfl | h
      · decide
      · simp [hdig₂ a h]
  rw [hsan, findProgressMatch_wellformed _ _ hne₁ hne₂ hdig₁ hdig₂]
  simp [hval₁, hval₂]

/-! ## Claim theorems -/

/-- C10: in every `AudioAnalysis` produced by `analyzeAudio`, the silence flag
at index `i` is true exactly when the RMS value at index `i` is strictly below
the fixed threshold 0.05, for every valid index `i`. -/
theorem silence_iff_rms_below_threshold (env : JsMathEnv) (rand : ℕ → ℚ) (duration : ℚ)
    (i : ℕ) (h : i < (analyzeAudio env rand duration).rms.length) :
    ((analyzeAudio env rand duration).silence.getD i false = true ↔
      (analyzeAudio env rand duration).rms.getD i 1 < 0.05) := by
  have hsil : (analyzeAudio env rand duration).silence =
      detectSilence ((analyzeAudio env rand duration).rms) := rfl
  rw [hsil, detectSilence, getD_map_of_lt _ (1 : ℚ) _ _ i h]
  simp

/-- Witness for C10 at a concrete analysis (duration 1, zero random stream):
index 0 is valid and the equivalence is applied there. -/
theorem silence_iff_rms_below_threshold_witness :
    0 < (analyzeAudio zeroEnv (fun _ => 0) 1).rms.length ∧
    ((analyzeAudio zeroEnv (fun _ => 0) 1).silence.getD 0 false = true ↔
      (analyzeAudio zeroEnv (fun _ => 0) 1).rms.getD 0 1 < 0.05) :=
  ⟨by norm_num [analyzeAudio, generateSimulatedRMS, analyzerSampleRate, analyzerFrameSize],
    silence_iff_rms_below_threshold zeroEnv (fun _ => 0) 1 0
      (by norm_num [analyzeAudio, generateSimulatedRMS, analyzerSampleRate, analyzerFrameSize])⟩

/-- C8: for every audio input whose duration `d > 0` is determined, the four
per-frame sequences of the `AudioAnalysis` returned by `analyzeAudio` have
identical length equal to `floor(d * sampleRate / frameSize)`, and every
vocal-energy value lies in `[0, 1]`. -/
theorem analyzeAudio_lengths_and_vocal_range (env : JsMathEnv) (rand : ℕ → ℚ) (d : ℚ)
    (hd : 0 < d) :
    ((analyzeAudio env rand d).rms.length : ℤ) = ⌊d * analyzerSampleRate / analyzerFrameSize⌋ ∧
    (analyzeAudio env rand d).frequencies.length = (analyzeAudio env rand d).rms.length ∧
    (analyzeAudio env rand d).silence.length = (analyzeAudio env rand d).rms.length ∧
    (analyzeAudio env rand d).vocalEnergy.length = (analyzeAudio env rand d).rms.length ∧
    ∀ v ∈ (analyzeAudio env rand d).vocalEnergy, 0 ≤ v ∧ v ≤ 1 := by
  have hpos : (0 : ℚ) < d * analyzerSampleRate / analyzerFrameSize := by
    apply div_pos
    · exact mul_pos hd (by norm_num [analyzerSampleRate])
    · norm_num [analyzerFrameSize]
  have hfl : 0 ≤ ⌊d * analyzerSampleRate / analyzerFrameSize⌋ :=
    Int.floor_nonneg.mpr hpos.le
  refine ⟨?_, ?_, ?_, ?_, ?_⟩
  · simp only [analyzeAudio, generateSimulatedRMS, List.length_map, List.length_range]
    omega
  · simp [analyzeAudio, generateSimulatedRMS, generateSimulatedFrequencies]
  · simp [analyzeAudio, generateSimulatedRMS, detectSilence]
  · simp [analyzeAudio, generateSimulatedRMS, generateSimulatedFrequencies,
      calculateVocalEnergy]
  · intro v hv
    have hv' : v ∈ calculateVocalEnergy ((analyzeAudio env rand d).frequencies) := hv
    rw [calculateVocalEnergy] at hv'
    rcases List.mem_map.mp hv' with ⟨f, _, rfl⟩
    rw [vocalEnergyOf]
    split_ifs <;> norm_num

/-- Witness for C8 at duration 1 with a zero random stream. -/
theorem analyzeAudio_lengths_witness :
    (0 : ℚ) < 1 ∧
    (((analyzeAudio zeroEnv (fun _ => 0) 1).rms.length : ℤ) =
        ⌊(1 : ℚ) * analyzerSampleRate / analyzerFrameSize⌋ ∧
      (analyzeAudio zeroEnv (fun _ => 0) 1).frequencies.length =
        (analyzeAudio zeroEnv (fun _ => 0) 1).rms.length ∧
      (analyzeAudio zeroEnv (fun _ => 0) 1).silence.length =
        (analyzeAudio zeroEnv (fun _ => 0) 1).rms.length ∧
      (analyzeAudio zeroEnv (fun _ => 0) 1).vocalEnergy.length =
        (analyzeAudio zeroEnv (fun _ => 0) 1).rms.length ∧
      ∀ v ∈ (analyzeAudio zeroEnv (fun _ => 0) 1).vocalEnergy, 0 ≤ v ∧ v ≤ 1) :=
  ⟨by norm_num, analyzeAudio_lengths_and_vocal_range zeroEnv (fun _ => 0) 1 (by norm_num)⟩

/-- C6: reading the progress record is total and defensive.  The embedded read
is a total function (matching the source: every step of the read path is a
non-throwing JavaScript operation and the whole body sits in a `try` that
returns `null`), and for every possible file content it returns either
NotFound or a pair of naturals that are the `parseInt` images of the two digit
groups of the first `(\d+)\/(\d+)` match of the sanitized content. -/
theorem getFrameProgress_total_and_defensive (file : Option String) :
    getFrameProgressModel file = none ∨
    ∃ (c t : ℕ) (content : String) (d1 d2 pre post : List Char),
      getFrameProgressModel file = some (c, t) ∧ file = some content ∧
      c = digitsToNat d1 ∧ t = digitsToNat d2 ∧ d1 ≠ [] ∧ d2 ≠ [] ∧
      (∀ ch ∈ d1, ch.isDigit = true) ∧ (∀ ch ∈ d2, ch.isDigit = true) ∧
      sanitizeProgress (jsTrim content.toList) = pre ++ d1 ++ '/' :: d2 ++ post := by
  cases file with
  | none => exact Or.inl rfl
  | some content =>
    rcases hm : findProgressMatch (sanitizeProgress (jsTrim content.toList)) with _ | ⟨d1, d2⟩ <;>
      rw [show content.toList = content.data from rfl] at hm
    · left
      simp [getFrameProgressModel, parseProgress, hm]
    · right
      obtain ⟨hne1, hne2, hd1, hd2, pre, post, hdec⟩ := findProgressMatch_sound _ _ _ hm
      exact ⟨digitsToNat d1, digitsToNat d2, content, d1, d2, pre, post,
        by simp [getFrameProgressModel, parseProgress, hm], rfl, rfl, rfl,
        hne1, hne2, hd1, hd2, hdec⟩

/-- Witness for C6 applied to a malformed progress file content. -/
theorem getFrameProgress_total_witness :
    getFrameProgressModel (some "12/") = none ∨
    ∃ (c t : ℕ) (content : String) (d1 d2 pre post : List Char),
      getFrameProgressModel (some "12/") = some (c, t) ∧ (some "12/" : Option String) = some content ∧
      c = digitsToNat d1 ∧ t = digitsToNat d2 ∧ d1 ≠ [] ∧ d2 ≠ [] ∧
      (∀ ch ∈ d1, ch.isDigit = true) ∧ (∀ ch ∈ d2, ch.isDigit = true) ∧
      sanitizeProgress (jsTrim content.toList) = pre ++ d1 ++ '/' :: d2 ++ post :=
  getFrameProgress_total_and_defensive (some "12/")

/-- C5: within a single job's frame-generation loop, the sequence of
`(current, total)` pairs written to the progress record is monotonically
non-decreasing in `current` with constant `total`, and the final write has
`current = total`, equal to the job's total frame count
`floor(duration * fps)`. -/
theorem progressWrites_monotone_and_final (config : VideoConfig) :
    List.Pairwise (fun a b : ℤ × ℤ => a.1 ≤ b.1) (progressWrites (totalFramesOf config)) ∧
    (∀ p ∈ progressWrites (totalFramesOf config), p.2 = totalFramesOf config) ∧
    (progressWrites (totalFramesOf config)).getLast? =
      some (totalFramesOf config, totalFramesOf config) := by
  set n : ℤ := totalFramesOf config with hn
  have hch : List.Chain' (fun a b : ℤ × ℤ => a.1 ≤ b.1) (progressWrites n) := by
    rw [progressWrites, List.chain'_append]
    refine ⟨?_, by simp, ?_⟩
    · rw [List.chain'_map (fun i : ℕ => ((i : ℤ), n))]
      cases hm : n.toNat with
      | zero => simp
      | succ m =>
        rw [List.chain'_range_succ]
        intro i _
        simp
    · intro x hx y hy
      simp only [List.head?_cons, Option.mem_def, Option.some.injEq] at hy
      subst hy
      rcases Nat.eq_zero_or_pos n.toNat with hz | hpos
      · rw [hz] at hx
        simp at hx
      · obtain ⟨m, hm⟩ : ∃ m, n.toNat = m + 1 := ⟨n.toNat - 1, by omega⟩
        have hsplit : (List.range n.toNat).map (fun i : ℕ => ((i : ℤ), n)) =
            (List.range m).map (fun i : ℕ => ((i : ℤ), n)) ++ [((m : ℤ), n)] := by
          rw [hm, List.range_succ, List.map_append, List.map_singleton]
        rw [hsplit, List.getLast?_concat] at hx
        simp only [Option.mem_def, Option.some.injEq] at hx
        subst hx
        show (m : ℤ) ≤ n
        omega
  haveI : IsTrans (ℤ × ℤ) (fun a b : ℤ × ℤ => a.1 ≤ b.1) :=
    ⟨fun a b c hab hbc => le_trans hab hbc⟩
  refine ⟨?_, ?_, ?_⟩
  · exact List.chain'_iff_pairwise.mp hch
  · intro p hp
    rw [progressWrites] at hp
    rcases List.mem_append.mp hp with h | h
    · rcases List.mem_map.mp h with ⟨i, _, rfl⟩
      rfl
    · simp at h
      rw [h]
  · rw [progressWrites]
    exact List.getLast?_concat _

/-- Witness for C5 at a 30-second job at 30 fps (900 frames). -/
theorem progressWrites_monotone_witness :
    List.Pairwise (fun a b : ℤ × ℤ => a.1 ≤ b.1)
      (progressWrites (totalFramesOf thirtySecondConfig)) ∧
    (∀ p ∈ progressWrites (totalFramesOf thirtySecondConfig),
      p.2 = totalFramesOf thirtySecondConfig) ∧
    (progressWrites (totalFramesOf thirtySecondConfig)).getLast? =
      some (totalFramesOf thirtySecondConfig, totalFramesOf thirtySecondConfig) :=
  progressWrites_monotone_and_final thirtySecondConfig

/-- C2 counterexample: the claim quantifies over every audio descriptor input,
but for the `'80s Retro Chromatic` preset the saturation `80 + rms * 20` is
returned unclamped, so an RMS of 2 yields saturation 120, outside `[0, 100]`. -/
theorem calculateVisualParams_saturation_exceeds_at_retro :
    (calculateVisualParams 0 2 0 0 retroChromaticPreset 0).saturation = 120 ∧
    ¬ ((calculateVisualParams 0 2 0 0 retroChromaticPreset 0).saturation ≤ 100) := by
  have h : (calculateVisualParams 0 2 0 0 retroChromaticPreset 0).saturation = 120 := by
    norm_num [calculateVisualParams, retroChromaticPreset]
    rw [if_neg (by decide)]
  exact ⟨h, by rw [h]; norm_num⟩

/-- C2 amended: for every registry preset, every time, every frequency, every
nonnegative per-frame seed, and RMS and vocal-energy inputs in `[0, 1]` (the
range the analyzer contract guarantees), the computed hue lies in `[0, 360)`
and saturation and brightness lie in `[0, 100]`, including at the boundary
where RMS equals the jump-cut threshold 0.15 exactly. -/
theorem calculateVisualParams_range_of_unit_inputs
    (time rms vocalEnergy frequency seed : ℚ) (preset : StylePreset)
    (hp : preset ∈ presets) (h0 : 0 ≤ rms) (h1 : rms ≤ 1)
    (h2 : 0 ≤ vocalEnergy) (h3 : vocalEnergy ≤ 1) (hs : 0 ≤ seed) :
    0 ≤ (calculateVisualParams time rms vocalEnergy frequency preset seed).hue ∧
    (calculateVisualParams time rms vocalEnergy frequency preset seed).hue < 360 ∧
    0 ≤ (calculateVisualParams time rms vocalEnergy frequency preset seed).saturation ∧
    (calculateVisualParams time rms vocalEnergy frequency preset seed).saturation ≤ 100 ∧
    0 ≤ (calculateVisualParams time rms vocalEnergy frequency preset seed).brightness ∧
    (calculateVisualParams time rms vocalEnergy frequency preset seed).brightness ≤ 100 := by
  have hp' : preset = frenchNewWavePreset ∨ preset = retroChromaticPreset ∨
      preset = wineCountryPreset := by simpa [presets] using hp
  rcases hp' with rfl | rfl | rfl
  · have e1 : calculateVisualParams time rms vocalEnergy frequency frenchNewWavePreset seed =
        { hue := 0, saturation := 0, brightness := if 0.2 < rms then 80 else 20,
          energyMultiplier := 1 + rms * 2, motionIntensity := 1 + rms * 3,
          jumpCutIntensity := if 0.15 < rms then 0.8 else 0,
          filmGrainIntensity := 0.3 + rms * 0.4, contrastMultiplier := 1 + rms * 2 } := by
      unfold calculateVisualParams
      rw [if_pos (show frenchNewWavePreset.name = "French New Wave" from rfl)]
    rw [e1]
    refine ⟨by norm_num, by norm_num, by norm_num, by norm_num, ?_, ?_⟩ <;>
      · dsimp only
        split_ifs <;> norm_num
  · have e1 : calculateVisualParams time rms vocalEnergy frequency retroChromaticPreset seed =
        { hue := randomChoice seed [0, 180, 300, 60], saturation := 80 + rms * 20,
          brightness := 60 + vocalEnergy * 20, energyMultiplier := 1 + rms * 2,
          motionIntensity := 0.5 + rms * 2, jumpCutIntensity := 0,
          filmGrainIntensity := 0.2 + rms * 0.3, contrastMultiplier := 1.2 + rms * 1.5 } := by
      unfold calculateVisualParams
      rw [if_neg (by decide),
        if_pos (show retroChromaticPreset.name = "'80s Retro Chromatic" from rfl)]
    have hmem := randomChoice_mem seed hs [0, 180, 300, 60] (by simp)
    have hm2 : randomChoice seed [0, 180, 300, 60] = 0 ∨
        randomChoice seed [0, 180, 300, 60] = 180 ∨
        randomChoice seed [0, 180, 300, 60] = 300 ∨
        randomChoice seed [0, 180, 300, 60] = 60 := by simpa using hmem
    rw [e1]
    refine ⟨?_, ?_, ?_, ?_, ?_, ?_⟩ <;> dsimp only
    · rcases hm2 with h | h | h | h <;> rw [h] <;> norm_num
    · rcases hm2 with h | h | h | h <;> rw [h] <;> norm_num
    · nlinarith
    · nlinarith
    · nlinarith
    · nlinarith
  · have e1 : calculateVisualParams time rms vocalEnergy frequency wineCountryPreset seed =
        { hue := randomChoice seed [30, 45, 60, 15], saturation := 40 + rms * 30,
          brightness := 50 + vocalEnergy * 15, energyMultiplier := 1 + rms * 2,
          motionIntensity := 0.3 + rms * 1, jumpCutIntensity := 0,
          filmGrainIntensity := 0.1 + rms * 0.2, contrastMultiplier := 0.8 + rms * 0.5 } := by
      unfold calculateVisualParams
      rw [if_neg (by decide), if_neg (by decide),
        if_pos (show wineCountryPreset.name = "Wine-Country Dreamscape" from rfl)]
    have hmem := randomChoice_mem seed hs [30, 45, 60, 15] (by simp)
    have hm2 : randomChoice seed [30, 45, 60, 15] = 30 ∨
        randomChoice seed [30, 45, 60, 15] = 45 ∨
        randomChoice seed [30, 45, 60, 15] = 60 ∨
        randomChoice seed [30, 45, 60, 15] = 15 := by simpa using hmem
    rw [e1]
    refine ⟨?_, ?_, ?_, ?_, ?_, ?_⟩ <;> dsimp only
    · rcases hm2 with h | h | h | h <;> rw [h] <;> norm_num
    · rcases hm2 with h | h | h | h <;> rw [h] <;> norm_num
    · nlinarith
    · nlinarith
    · nlinarith
    · nlinarith

/-- Witness for C2 at the boundary RMS 0.15 (the jump-cut threshold) for the
French New Wave preset. -/
theorem calculateVisualParams_range_witness :
    frenchNewWavePreset ∈ presets ∧ (0 : ℚ) ≤ 0.15 ∧ (0.15 : ℚ) ≤ 1 ∧
    (0 : ℚ) ≤ 0.5 ∧ (0.5 : ℚ) ≤ 1 ∧ (0 : ℚ) ≤ 7 ∧
    (0 ≤ (calculateVisualParams 2 0.15 0.5 200 frenchNewWavePreset 7).hue ∧
      (calculateVisualParams 2 0.15 0.5 200 frenchNewWavePreset 7).hue < 360 ∧
      0 ≤ (calculateVisualParams 2 0.15 0.5 200 frenchNewWavePreset 7).saturation ∧
      (calculateVisualParams 2 0.15 0.5 200 frenchNewWavePreset 7).saturation ≤ 100 ∧
      0 ≤ (calculateVisualParams 2 0.15 0.5 200 frenchNewWavePreset 7).brightness ∧
      (calculateVisualParams 2 0.15 0.5 200 frenchNewWavePreset 7).brightness ≤ 100) :=
  ⟨by simp [presets], by norm_num, by norm_num, by norm_num, by norm_num, by norm_num,
    calculateVisualParams_range_of_unit_inputs 2 0.15 0.5 200 7 frenchNewWavePreset
      (by simp [presets]) (by norm_num) (by norm_num) (by norm_num) (by norm_num) (by norm_num)⟩

/-- C1 amended: frame synthesis is deterministic for every nonzero fixed job
seed: with `config.seed = some s` and `s ≠ 0`, both the FrameDescriptor
produced by `generateFrameData` and the generated SVG frame string are
independent of the `Date.now()` value, hence identical across two runs at
different wall-clock instants; `Math.random` is never consulted on this path
and `Math.sin`/`Math.cos` are fixed pure functions (arbitrary `env`). -/
theorem generateFrameData_deterministic_of_seed_nonzero
    (env : JsMathEnv) (config : VideoConfig) (s time now1 now2 w h : ℚ)
    (hseed : config.seed = some s) (hs : s ≠ 0) :
    generateFrameData time config now1 = generateFrameData time config now2 ∧
    generateSVGFrame env (generateFrameData time config now1) w h =
      generateSVGFrame env (generateFrameData time config now2) w h := by
  have hb : baseSeedOf config.seed now1 = baseSeedOf config.seed now2 := by
    rw [hseed]
    simp [baseSeedOf, hs]
  have h1 : generateFrameData time config now1 = generateFrameData time config now2 := by
    unfold generateFrameData
    rw [hb]
  exact ⟨h1, by rw [h1]⟩

/-- Witness for C1 at a concrete config with job seed 5 and two different
wall-clock readings. -/
theorem generateFrameData_deterministic_witness :
    fixedSeedConfig.seed = some 5 ∧ (5 : ℚ) ≠ 0 ∧
    (generateFrameData 0 fixedSeedConfig 111 = generateFrameData 0 fixedSeedConfig 222 ∧
      generateSVGFrame zeroEnv (generateFrameData 0 fixedSeedConfig 111) 1920 1080 =
        generateSVGFrame zeroEnv (generateFrameData 0 fixedSeedConfig 222) 1920 1080) :=
  ⟨rfl, by norm_num,
    generateFrameData_deterministic_of_seed_nonzero zeroEnv fixedSeedConfig 5 0 111 222
      1920 1080 rfl (by norm_num)⟩

/-- C1 counterexample: for the fixed job seed 0 — a falsy JavaScript number —
the source computes `baseSeed = seed || Date.now()`, so frame-data generation
depends on the wall clock: runs at Date.now() = 1 and Date.now() = 2 produce
different FrameDescriptors (already in the per-frame `seed` field). -/
theorem generateFrameData_depends_on_clock_at_zero_seed :
    generateFrameData 0 zeroSeedConfig 1 ≠ generateFrameData 0 zeroSeedConfig 2 := by
  have hA : (generateFrameData 0 zeroSeedConfig 1).seed = 1 := by
    norm_num [generateFrameData, baseSeedOf, zeroSeedConfig]
  have hB : (generateFrameData 0 zeroSeedConfig 2).seed = 2 := by
    norm_num [generateFrameData, baseSeedOf, zeroSeedConfig]
  intro hcontr
  rw [hcontr, hB] at hA
  norm_num at hA

/-- C4 counterexample: the analysis frame index 0 is in range and the stored
RMS value there is exactly 0, yet `generateFrameData` substitutes the neutral
default 0.1 — the JavaScript `|| 0.1` default treats the stored 0 as falsy,
not only an out-of-range index. -/
theorem generateFrameData_substitutes_default_for_zero :
    jsArrayGet zeroRmsConfig.audioAnalysis.rms (audioFrameIndexOf zeroRmsConfig 0) = some 0 ∧
    (generateFrameData 0 zeroRmsConfig 7).rms = 0.1 ∧ (0.1 : ℚ) ≠ 0 := by
  refine ⟨?_, ?_, by norm_num⟩
  · norm_num [zeroRmsConfig, zeroRmsAnalysis, audioFrameIndexOf, jsArrayGet]
  · norm_num [generateFrameData, zeroRmsConfig, zeroRmsAnalysis, audioFrameIndexOf,
      jsArrayGet, jsOrDefault]

/-- C4 amended: the neutral defaults (RMS 0.1, vocal-energy 0.5, frequency
150) are substituted exactly when the indexed value is missing (index
`floor(time * sampleRate / frameSize)` out of range) or is the falsy number 0;
every in-range nonzero stored value is used unchanged. -/
theorem generateFrameData_audio_default_rule (config : VideoConfig) (time now : ℚ) :
    ((jsArrayGet config.audioAnalysis.rms (audioFrameIndexOf config time) = none ∨
      jsArrayGet config.audioAnalysis.rms (audioFrameIndexOf config time) = some 0) →
        (generateFrameData time config now).rms = 0.1) ∧
    (∀ x, jsArrayGet config.audioAnalysis.rms (audioFrameIndexOf config time) = some x →
        x ≠ 0 → (generateFrameData time config now).rms = x) ∧
    ((jsArrayGet config.audioAnalysis.vocalEnergy (audioFrameIndexOf config time) = none ∨
      jsArrayGet config.audioAnalysis.vocalEnergy (audioFrameIndexOf config time) = some 0) →
        (generateFrameData time config now).vocalEnergy = 0.5) ∧
    (∀ x, jsArrayGet config.audioAnalysis.vocalEnergy (audioFrameIndexOf config time) = some x →
        x ≠ 0 → (generateFrameData time config now).vocalEnergy = x) ∧
    ((jsArrayGet config.audioAnalysis.frequencies (audioFrameIndexOf config time) = none ∨
      jsArrayGet config.audioAnalysis.frequencies (audioFrameIndexOf config time) = some 0) →
        (generateFrameData time config now).frequency = 150) ∧
    (∀ x, jsArrayGet config.audioAnalysis.frequencies (audioFrameIndexOf config time) = some x →
        x ≠ 0 → (generateFrameData time config now).frequency = x) := by
  have hrms : (generateFrameData time config now).rms =
      jsOrDefault (jsArrayGet config.audioAnalysis.rms (audioFrameIndexOf config time)) 0.1 := rfl
  have hve : (generateFrameData time config now).vocalEnergy =
      jsOrDefault (jsArrayGet config.audioAnalysis.vocalEnergy (audioFrameIndexOf config time))
        0.5 := rfl
  have hfr : (generateFrameData time config now).frequency =
      jsOrDefault (jsArrayGet config.audioAnalysis.frequencies (audioFrameIndexOf config time))
        150 := rfl
  refine ⟨?_, ?_, ?_, ?_, ?_, ?_⟩
  · rintro (h | h) <;> rw [hrms, h] <;> simp [jsOrDefault]
  · intro x hx hx0
    rw [hrms, hx]
    simp [jsOrDefault, hx0]
  · rintro (h | h) <;> rw [hve, h] <;> simp [jsOrDefault]
  · intro x hx hx0
    rw [hve, hx]
    simp [jsOrDefault, hx0]
  · rintro (h | h) <;> rw [hfr, h] <;> simp [jsOrDefault]
  · intro x hx hx0
    rw [hfr, hx]
    simp [jsOrDefault, hx0]

/-- Witness for C4 at the concrete zero-RMS config. -/
theorem generateFrameData_audio_default_rule_witness :
    ((jsArrayGet zeroRmsConfig.audioAnalysis.rms (audioFrameIndexOf zeroRmsConfig 0) = none ∨
      jsArrayGet zeroRmsConfig.audioAnalysis.rms (audioFrameIndexOf zeroRmsConfig 0) = some 0) →
        (generateFrameData 0 zeroRmsConfig 7).rms = 0.1) ∧
    (∀ x, jsArrayGet zeroRmsConfig.audioAnalysis.rms (audioFrameIndexOf zeroRmsConfig 0) =
        some x → x ≠ 0 → (generateFrameData 0 zeroRmsConfig 7).rms = x) ∧
    ((jsArrayGet zeroRmsConfig.audioAnalysis.vocalEnergy (audioFrameIndexOf zeroRmsConfig 0) =
        none ∨
      jsArrayGet zeroRmsConfig.audioAnalysis.vocalEnergy (audioFrameIndexOf zeroRmsConfig 0) =
        some 0) → (generateFrameData 0 zeroRmsConfig 7).vocalEnergy = 0.5) ∧
    (∀ x, jsArrayGet zeroRmsConfig.audioAnalysis.vocalEnergy (audioFrameIndexOf zeroRmsConfig 0) =
        some x → x ≠ 0 → (generateFrameData 0 zeroRmsConfig 7).vocalEnergy = x) ∧
    ((jsArrayGet zeroRmsConfig.audioAnalysis.frequencies (audioFrameIndexOf zeroRmsConfig 0) =
        none ∨
      jsArrayGet zeroRmsConfig.audioAnalysis.frequencies (audioFrameIndexOf zeroRmsConfig 0) =
        some 0) → (generateFrameData 0 zeroRmsConfig 7).frequency = 150) ∧
    (∀ x, jsArrayGet zeroRmsConfig.audioAnalysis.frequencies (audioFrameIndexOf zeroRmsConfig 0) =
        some x → x ≠ 0 → (generateFrameData 0 zeroRmsConfig 7).frequency = x) :=
  generateFrameData_audio_default_rule zeroRmsConfig 0 7

/-- C3 counterexample: the terminal failure record written by the background
job's catch block for the unknown style "Nonexistent Style" is
`{error, details, jobId}` — it carries no `success` key at all, contradicting
the claimed `{success: false, jobId, error, details}` shape. -/
theorem backgroundJob_failure_lacks_success_key :
    (backgroundJob "job-1" "Nonexistent Style" (Except.ok emptyAnalysis)
      (Except.ok "v.mp4") (Except.ok "f.mp4") (Except.ok "t.jpg")).lookup "success" = none ∧
    (backgroundJob "job-1" "Nonexistent Style" (Except.ok emptyAnalysis)
      (Except.ok "v.mp4") (Except.ok "f.mp4") (Except.ok "t.jpg")).lookup "success" ≠
      some (JsonVal.bool false) := by
  have h : (backgroundJob "job-1" "Nonexistent Style" (Except.ok emptyAnalysis)
      (Except.ok "v.mp4") (Except.ok "f.mp4") (Except.ok "t.jpg")).lookup "success" = none :=
    rfl
  exact ⟨h, by rw [h]; simp⟩

/-- C3 amended: when the background job fails — in particular when the style
preset lookup fails — the terminal record is
`{error: 'Failed to process upload', details, jobId}` where `details` is the
thrown message; for an unknown style that message contains the offending
style name as a substring, and the record carries neither a `videoPath` nor a
`success` key. -/
theorem backgroundJob_unknown_style_failure_record
    (jobId stylePresetName : String) (analysis : AudioAnalysis)
    (encodeResult overlayResult thumbnailResult : Except String String)
    (hstyle : findPreset stylePresetName = none) :
    backgroundJob jobId stylePresetName (Except.ok analysis)
        encodeResult overlayResult thumbnailResult =
      failureRecord jobId (styleNotFoundMessage stylePresetName) ∧
    (failureRecord jobId (styleNotFoundMessage stylePresetName)).lookup "videoPath" = none ∧
    (failureRecord jobId (styleNotFoundMessage stylePresetName)).lookup "success" = none ∧
    ∃ pre post, (styleNotFoundMessage stylePresetName).data =
      pre ++ stylePresetName.data ++ post := by
  refine ⟨?_, by simp [failureRecord, List.lookup], by simp [failureRecord, List.lookup], ?_⟩
  · simp only [backgroundJob]
    rw [hstyle]
  · refine ⟨("Style preset \"" : String).data, ("\" not found" : String).data, ?_⟩
    rw [styleNotFoundMessage]
    simp [String.data_append]

/-- Witness for C3 at the concrete unknown style name "Nonexistent Style". -/
theorem backgroundJob_unknown_style_failure_witness :
    findPreset "Nonexistent Style" = none ∧
    (backgroundJob "job-1" "Nonexistent Style" (Except.ok emptyAnalysis)
        (Except.ok "v.mp4") (Except.ok "f.mp4") (Except.ok "t.jpg") =
      failureRecord "job-1" (styleNotFoundMessage "Nonexistent Style") ∧
    (failureRecord "job-1" (styleNotFoundMessage "Nonexistent Style")).lookup "videoPath" =
      none ∧
    (failureRecord "job-1" (styleNotFoundMessage "Nonexistent Style")).lookup "success" =
      none ∧
    ∃ pre post, (styleNotFoundMessage "Nonexistent Style").data =
      pre ++ ("Nonexistent Style" : String).data ++ post) :=
  ⟨rfl, backgroundJob_unknown_style_failure_record "job-1" "Nonexistent Style" emptyAnalysis
    (Except.ok "v.mp4") (Except.ok "f.mp4") (Except.ok "t.jpg") rfl⟩

/-- C7 counterexample: a job that has been accepted already has a progress
file — `upload.ts` writes the placeholder `0/1` synchronously before the
background job starts — so polling an accepted-but-not-started job returns
`{current: 0, total: 1}`, not the claimed NotFound. -/
theorem progress_after_accept_is_placeholder :
    getFrameProgressModel (some uploadInitialProgress) = some (0, 1) ∧
    getFrameProgressModel (some uploadInitialProgress) ≠ none := by
  have h : getFrameProgressModel (some uploadInitialProgress) = some (0, 1) := rfl
  exact ⟨h, by rw [h]; simp⟩

/-- C7 amended: polling before the job is accepted (no progress file yet)
returns NotFound; after the final frame the file holds
`totalFrames/totalFrames` and polling returns current = total = totalFrames;
repeated polls of the unchanged file return the same stable value. -/
theorem progress_poll_lifecycle (total : ℤ) (k : ℕ) (htotal : 0 ≤ total) :
    getFrameProgressModel none = none ∧
    getFrameProgressModel (some (progressLine total total)) =
      some (total.toNat, total.toNat) ∧
    repeatedPolls (some (progressLine total total)) k =
      List.replicate k (some (total.toNat, total.toNat)) := by
  have hro : getFrameProgressModel (some (progressLine total total)) =
      some (total.toNat, total.toNat) := by
    have h := parseProgress_roundtrip total.toNat total.toNat
    rw [show ((total.toNat : ℤ)) = total from by omega] at h
    exact h
  refine ⟨rfl, hro, ?_⟩
  simp only [repeatedPolls, hro]
  simp [List.eq_replicate_iff, List.mem_map]

/-- Witness for C7 at the concrete total frame count 900 and three polls. -/
theorem progress_poll_lifecycle_witness :
    (0 : ℤ) ≤ 900 ∧
    (getFrameProgressModel none = none ∧
      getFrameProgressModel (some (progressLine 900 900)) =
        some ((900 : ℤ).toNat, (900 : ℤ).toNat) ∧
      repeatedPolls (some (progressLine 900 900)) 3 =
        List.replicate 3 (some ((900 : ℤ).toNat, (900 : ℤ).toNat))) :=
  ⟨by norm_num, progress_poll_lifecycle 900 3 (by norm_num)⟩

theorem unescape_escape (s : List Char) :
    unescapeFilterText (escapeFilterText s) = some s := by
  induction s with
  | nil => rfl
  | cons c cs ih =>
    by_cases hc : c = '\'' ∨ c = '\\'
    · have h1 : escapeFilterText (c :: cs) = '\\' :: c :: escapeFilterText cs := by
        simp only [escapeFilterText, List.flatMap_cons, if_pos hc]
        rfl
      rw [h1, unescapeFilterText.eq_def]
      dsimp only
      rw [if_pos rfl]
      simp [ih]
    · push_neg at hc
      have h1 : escapeFilterText (c :: cs) = c :: escapeFilterText cs := by
        simp only [escapeFilterText, List.flatMap_cons,
          if_neg (by tauto : ¬ (c = '\'' ∨ c = '\\'))]
        rfl
      rw [h1, unescapeFilterText.eq_def]
      dsimp only
      rw [if_neg hc.2, if_neg hc.1]
      simp [ih]

/-- C9 counterexample: the emitted enable option is FFmpeg
`between(t, start, start + duration)`, which per the FFmpeg documentation is
inclusive at both endpoints, so at t = start + duration = 5 the intro
overlay's window still holds, contradicting the claimed strict upper bound
start ≤ t < start + duration. -/
theorem enable_window_inclusive_at_end :
    enableWindowHolds introOverlay 5 = true ∧
    ¬ (introOverlay.startTime ≤ 5 ∧
        (5 : ℚ) < introOverlay.startTime + introOverlay.duration) := by
  constructor
  · norm_num [enableWindowHolds, betweenFF, introOverlay]
  · norm_num [introOverlay]

/-- C9 amended: the overlay filter is the single comma-joined expression of the
per-element drawtext filters; each element's text has every quote and
backslash escaped before insertion (the escape is injective — it can be
reversed), and each element's enable-window holds exactly for
start ≤ t ≤ start + duration, inclusive rather than strict at the upper
bound. -/
theorem overlay_filter_structure (overlays : List OverlayElement) (w h t : ℚ)
    (o : OverlayElement) (s : List Char) :
    buildFilterComplex overlays w h =
      String.intercalate "," (overlays.map (fun e => createTextFilter e w h)) ∧
    (enableWindowHolds o t = true ↔
      (o.startTime ≤ t ∧ t ≤ o.startTime + o.duration)) ∧
    unescapeFilterText (escapeFilterText s) = some s ∧
    ∃ rest : String, createTextFilter o w h =
      "drawtext=text='" ++ String.mk (escapeFilterText o.content.toList) ++ rest := by
  refine ⟨rfl, ?_, unescape_escape s, ?_⟩
  · rw [enableWindowHolds, betweenFF]
    simp [Bool.and_eq_true, decide_eq_true_iff]
  · refine ⟨"':" ++ "fontsize=" ++ ratStr o.style.fontSize ++ ":" ++ "fontcolor=" ++
      o.style.color ++ ":" ++ "x=" ++ ratStr o.posX ++ ":" ++ "y=" ++ ratStr o.posY ++ ":" ++
      "enable='between(t," ++ ratStr o.startTime ++ "," ++
      ratStr (o.startTime + o.duration) ++ ")':" ++
      "fontfile=/System/Library/Fonts/Arial.ttf:" ++
      "box=1:boxcolor=" ++ o.style.backgroundColor.getD "#000000" ++ ":" ++
      "boxborderw=5:alpha=" ++ ratStr o.style.opacity, ?_⟩
    rw [createTextFilter]
    simp [String.append_assoc]

/-- Witness for C9 at the concrete intro overlay, its window end time, and a
text containing a quote and a backslash. -/
theorem overlay_filter_structure_witness :
    buildFilterComplex [introOverlay] 1920 1080 =
      String.intercalate ","
        (([introOverlay]).map (fun e => createTextFilter e 1920 1080)) ∧
    (enableWindowHolds introOverlay 5 = true ↔
      (introOverlay.startTime ≤ 5 ∧
        (5 : ℚ) ≤ introOverlay.startTime + introOverlay.duration)) ∧
    unescapeFilterText (escapeFilterText ('\'' :: '\\' :: ['a'])) =
      some ('\'' :: '\\' :: ['a']) ∧
    ∃ rest : String, createTextFilter introOverlay 1920 1080 =
      "drawtext=text='" ++ String.mk (escapeFilterText introOverlay.content.toList) ++ rest :=
  overlay_filter_structure [introOverlay] 1920 1080 5 introOverlay ('\'' :: '\\' :: ['a'])
